import Mathlib

/-!
# Publication image: inline classification helpers

A shallow embedding of the inline functions of
`aeron-driver/src/main/c/aeron_publication_image.h`:

* `aeron_publication_image_is_heartbeat`
* `aeron_publication_image_is_end_of_stream`
* `aeron_publication_image_is_flow_control_under_run`
* `aeron_publication_image_is_flow_control_over_run`
* `aeron_publication_image_hwm_candidate`

Conventions of the embedding.

* `int64_t`, `int32_t` values are integers; the one arithmetic operation the
  header itself performs on them (`window_position + next_sm_receiver_window_length`)
  is reduced to the `int64_t` range by `wrap_int64`.
* A function that mutates `*image` returns the image after the call (next to
  its C return value when it has one).
* A member that is a pointer to a counter cell (`int64_t *`, `value_addr`) is
  represented by the content of the cell it points to.  Each such cell is a
  separate allocation of the counters manager.
* Members whose types are declared in other headers and which none of the
  inline functions reads or writes are carried as uninterpreted handles.
* `image->nano_clock()` reads the outside world; the value it returns in a
  call is an argument (`now_ns`) of the embedded function.
-/

namespace Aeron

/-! ## Machine integers -/

/-- Smallest `int64_t`. -/
def INT64_MIN : Int := -(2 ^ 63)

/-- Largest `int64_t`. -/
def INT64_MAX : Int := 2 ^ 63 - 1

/-- Reduction of an integer to the two's-complement `int64_t` range. -/
def wrap_int64 (x : Int) : Int := (x + 2 ^ 63) % 2 ^ 64 - 2 ^ 63

/-- The value fits an `int64_t`. -/
def in_int64 (x : Int) : Prop := INT64_MIN ≤ x ∧ x ≤ INT64_MAX

instance (x : Int) : Decidable (in_int64 x) :=
  inferInstanceAs (Decidable (INT64_MIN ≤ x ∧ x ≤ INT64_MAX))

/-! ## Data model -/

/-- The enum `aeron_publication_image_status_enum`. -/
inductive aeron_publication_image_status_t where
  | AERON_PUBLICATION_IMAGE_STATUS_INIT
  | AERON_PUBLICATION_IMAGE_STATUS_INACTIVE
  | AERON_PUBLICATION_IMAGE_STATUS_ACTIVE
  | AERON_PUBLICATION_IMAGE_STATUS_LINGER
  deriving DecidableEq, Repr

/-- The nested struct `aeron_publication_image_conductor_fields_stct`.
`managed_resource` and `subscribeable` are handles. -/
structure aeron_publication_image_conductor_fields_stct where
  managed_resource : Nat
  subscribeable : Nat
  clean_position : Int
  time_of_last_activity_ns : Int
  liveness_timeout_ns : Int
  has_reached_end_of_life : Bool
  status : aeron_publication_image_status_t
  deriving DecidableEq, Repr

/-- The struct `aeron_publication_image_stct`, member by member (the padding
array left out).  `rcv_hwm_position` and `rcv_pos_position` hold the content
of the cell at their `value_addr`; the three `*_counter` members hold the
content of the cell they point to. -/
structure aeron_publication_image_t where
  conductor_fields : aeron_publication_image_conductor_fields_stct
  control_address : Nat
  source_address : Nat
  mapped_raw_log : Nat
  rcv_hwm_position : Int
  rcv_pos_position : Int
  log_meta_data : Nat
  endpoint : Nat
  congestion_control : Nat
  nano_clock : Nat
  epoch_clock : Nat
  log_file_name : Nat
  correlation_id : Int
  session_id : Int
  stream_id : Int
  initial_term_id : Int
  active_term_id : Int
  initial_term_offset : Int
  term_length : Int
  mtu_length : Int
  term_length_mask : Int
  log_file_name_length : Nat
  position_bits_to_shift : Nat
  map_raw_log_close_func : Nat
  last_packet_timestamp_ns : Int
  next_sm_position : Int
  next_sm_receiver_window_length : Int
  heartbeats_received_counter : Int
  flow_control_under_runs_counter : Int
  flow_control_over_runs_counter : Int
  deriving DecidableEq, Repr

/-- Modelled from the spec: the struct `aeron_frame_header_t` is declared in a
header that is not part of the sources at hand; the spec describes it as a
common frame header carrying a 32-bit frame length and a flags byte.  The
inline functions cast the start of the received buffer to this struct, so the
buffer argument is represented by the header it starts with. -/
structure aeron_frame_header_t where
  frame_length : Int
  flags : Nat
  deriving DecidableEq, Repr

/-! ## Counter primitives -/

/-- Modelled from the spec: `aeron_counter_ordered_increment` is defined in a
header that is not part of the sources at hand; the spec calls it an ordered
increment of a monotonic diagnostic counter.  The cell content afterwards is
the content before plus the given amount. -/
def aeron_counter_ordered_increment (cell : Int) (value : Int) : Int :=
  cell + value

/-- Modelled from the spec: `aeron_counter_propose_max_ordered` is defined in
a header that is not part of the sources at hand; the spec calls it a
proposed-maximum update that never regresses: the proposed value is stored if
the current content is less than it. -/
def aeron_counter_propose_max_ordered (cell : Int) (proposed_value : Int) : Int :=
  if cell < proposed_value then proposed_value else cell

/-! ## The inline functions -/

/-- `aeron_publication_image_is_heartbeat(buffer, length)`.  The constant
`AERON_DATA_HEADER_LENGTH` is defined in another header and is a parameter. -/
def aeron_publication_image_is_heartbeat (AERON_DATA_HEADER_LENGTH : Nat)
    (buffer : aeron_frame_header_t) (length : Nat) : Bool :=
  length == AERON_DATA_HEADER_LENGTH && 0 == buffer.frame_length

/-- `aeron_publication_image_is_end_of_stream(buffer, length)`.  The result of
the bitwise and is converted to `bool`: true when it is not zero.  The three
flag constants are defined in another header and are parameters. -/
def aeron_publication_image_is_end_of_stream
    (AERON_DATA_HEADER_EOS_FLAG AERON_DATA_HEADER_BEGIN_FLAG AERON_DATA_HEADER_END_FLAG : Nat)
    (buffer : aeron_frame_header_t) (_length : Nat) : Bool :=
  (buffer.flags &&&
    (AERON_DATA_HEADER_EOS_FLAG ||| AERON_DATA_HEADER_BEGIN_FLAG ||| AERON_DATA_HEADER_END_FLAG)) != 0

/-- `aeron_publication_image_is_flow_control_under_run(image, window_position,
packet_position)`: the returned flag and the image after the call. -/
def aeron_publication_image_is_flow_control_under_run (image : aeron_publication_image_t)
    (window_position packet_position : Int) : Bool × aeron_publication_image_t :=
  let is_flow_control_under_run : Bool := decide (packet_position < window_position)
  if is_flow_control_under_run then
    (is_flow_control_under_run,
      { image with
        flow_control_under_runs_counter :=
          aeron_counter_ordered_increment image.flow_control_under_runs_counter 1 })
  else
    (is_flow_control_under_run, image)

/-- `aeron_publication_image_is_flow_control_over_run(image, window_position,
proposed_position)`: the returned flag and the image after the call.  The sum
is an `int64_t` addition. -/
def aeron_publication_image_is_flow_control_over_run (image : aeron_publication_image_t)
    (window_position proposed_position : Int) : Bool × aeron_publication_image_t :=
  let is_flow_control_over_run : Bool :=
    decide (proposed_position >
      wrap_int64 (window_position + image.next_sm_receiver_window_length))
  if is_flow_control_over_run then
    (is_flow_control_over_run,
      { image with
        flow_control_over_runs_counter :=
          aeron_counter_ordered_increment image.flow_control_over_runs_counter 1 })
  else
    (is_flow_control_over_run, image)

/-- `aeron_publication_image_hwm_candidate(image, proposed_position)`: the
image after the call, `now_ns` being what `image->nano_clock()` returned. -/
def aeron_publication_image_hwm_candidate (image : aeron_publication_image_t)
    (now_ns : Int) (proposed_position : Int) : aeron_publication_image_t :=
  let image1 := { image with last_packet_timestamp_ns := now_ns }
  { image1 with
    rcv_hwm_position :=
      aeron_counter_propose_max_ordered image1.rcv_hwm_position proposed_position }

/-! ## Sequences of calls -/

/-- The images seen along a finite sequence of
`aeron_publication_image_hwm_candidate` calls, the initial one first; a call
is a pair of the clock reading and the proposed position. -/
def hwm_candidate_trace :
    aeron_publication_image_t → List (Int × Int) → List aeron_publication_image_t
  | image, [] => [image]
  | image, call :: calls =>
    image :: hwm_candidate_trace
      (aeron_publication_image_hwm_candidate image call.1 call.2) calls

/-- The image after a finite sequence of
`aeron_publication_image_hwm_candidate` calls. -/
def hwm_candidate_run (image : aeron_publication_image_t) (calls : List (Int × Int)) :
    aeron_publication_image_t :=
  calls.foldl (fun im call => aeron_publication_image_hwm_candidate im call.1 call.2) image

/-! ## Sample states -/

/-- An image in its `ACTIVE` state with a 128 KiB receiver window. -/
def sample_image : aeron_publication_image_t where
  conductor_fields :=
    { managed_resource := 1
      subscribeable := 2
      clean_position := 0
      time_of_last_activity_ns := 1000
      liveness_timeout_ns := 10000000000
      has_reached_end_of_life := false
      status := .AERON_PUBLICATION_IMAGE_STATUS_ACTIVE }
  control_address := 3
  source_address := 4
  mapped_raw_log := 5
  rcv_hwm_position := 4096
  rcv_pos_position := 2048
  log_meta_data := 6
  endpoint := 7
  congestion_control := 8
  nano_clock := 9
  epoch_clock := 10
  log_file_name := 11
  correlation_id := 42
  session_id := 7
  stream_id := 10
  initial_term_id := 0
  active_term_id := 0
  initial_term_offset := 0
  term_length := 65536
  mtu_length := 1408
  term_length_mask := 65535
  log_file_name_length := 32
  position_bits_to_shift := 16
  map_raw_log_close_func := 12
  last_packet_timestamp_ns := 900
  next_sm_position := 2048
  next_sm_receiver_window_length := 131072
  heartbeats_received_counter := 3
  flow_control_under_runs_counter := 5
  flow_control_over_runs_counter := 8

/-! ## Auxiliary facts -/

theorem wrap_int64_of_in_int64 (x : Int) (h : in_int64 x) : wrap_int64 x = x := by
  obtain ⟨hlo, hhi⟩ := h
  unfold INT64_MIN at hlo
  unfold INT64_MAX at hhi
  unfold wrap_int64
  have h1 : (x + 2 ^ 63) % 2 ^ 64 = x + 2 ^ 63 :=
    Int.emod_eq_of_lt (by omega) (by omega)
  omega

theorem propose_max_eq_max (cell proposed_value : Int) :
    aeron_counter_propose_max_ordered cell proposed_value = max cell proposed_value := by
  unfold aeron_counter_propose_max_ordered
  split <;> omega

theorem hwm_candidate_hwm (image : aeron_publication_image_t) (now_ns p : Int) :
    (aeron_publication_image_hwm_candidate image now_ns p).rcv_hwm_position
      = max image.rcv_hwm_position p := by
  simp [aeron_publication_image_hwm_candidate, propose_max_eq_max]

theorem hwm_candidate_hwm_le (image : aeron_publication_image_t) (now_ns p : Int) :
    image.rcv_hwm_position
      ≤ (aeron_publication_image_hwm_candidate image now_ns p).rcv_hwm_position := by
  rw [hwm_candidate_hwm]; exact le_max_left _ _

theorem hwm_candidate_trace_head (image : aeron_publication_image_t) (calls : List (Int × Int)) :
    ∃ rest, hwm_candidate_trace image calls = image :: rest := by
  cases calls with
  | nil => exact ⟨[], rfl⟩
  | cons call calls => exact ⟨_, rfl⟩

theorem hwm_candidate_trace_chain (calls : List (Int × Int)) :
    ∀ image : aeron_publication_image_t,
      List.Chain' (fun a b => a.rcv_hwm_position ≤ b.rcv_hwm_position)
        (hwm_candidate_trace image calls) := by
  induction calls with
  | nil => intro image; simp [hwm_candidate_trace]
  | cons call calls ih =>
    intro image
    obtain ⟨rest, hrest⟩ := hwm_candidate_trace_head
      (aeron_publication_image_hwm_candidate image call.1 call.2) calls
    have hch := ih (aeron_publication_image_hwm_candidate image call.1 call.2)
    simp only [hwm_candidate_trace]
    rw [hrest] at hch ⊢
    exact List.Chain'.cons (hwm_candidate_hwm_le image call.1 call.2) hch

theorem hwm_candidate_trace_ge (calls : List (Int × Int)) :
    ∀ image : aeron_publication_image_t, ∀ s ∈ hwm_candidate_trace image calls,
      image.rcv_hwm_position ≤ s.rcv_hwm_position := by
  induction calls with
  | nil =>
    intro image s hs
    simp [hwm_candidate_trace] at hs
    subst hs; exact le_refl _
  | cons call calls ih =>
    intro image s hs
    simp only [hwm_candidate_trace, List.mem_cons] at hs
    rcases hs with hs | hs
    · subst hs; exact le_refl _
    · exact le_trans (hwm_candidate_hwm_le image call.1 call.2) (ih _ s hs)

theorem hwm_candidate_run_ge (calls : List (Int × Int)) :
    ∀ image : aeron_publication_image_t,
      image.rcv_hwm_position ≤ (hwm_candidate_run image calls).rcv_hwm_position := by
  induction calls with
  | nil => intro image; exact le_refl _
  | cons call calls ih =>
    intro image
    have h := ih (aeron_publication_image_hwm_candidate image call.1 call.2)
    simp only [hwm_candidate_run, List.foldl_cons] at h ⊢
    exact le_trans (hwm_candidate_hwm_le image call.1 call.2) h

theorem hwm_candidate_trace_getLast (calls : List (Int × Int)) :
    ∀ image : aeron_publication_image_t,
      (hwm_candidate_trace image calls).getLast? = some (hwm_candidate_run image calls) := by
  induction calls with
  | nil => intro image; rfl
  | cons call calls ih =>
    intro image
    obtain ⟨rest, hrest⟩ := hwm_candidate_trace_head
      (aeron_publication_image_hwm_candidate image call.1 call.2) calls
    have h := ih (aeron_publication_image_hwm_candidate image call.1 call.2)
    simp only [hwm_candidate_trace, hwm_candidate_run, List.foldl_cons] at h ⊢
    rw [hrest] at h ⊢
    rw [List.getLast?_cons_cons]
    exact h

theorem under_run_flag (image : aeron_publication_image_t) (w p : Int) :
    (aeron_publication_image_is_flow_control_under_run image w p).1 = decide (p < w) := by
  unfold aeron_publication_image_is_flow_control_under_run
  by_cases h : p < w <;> simp [h]

theorem over_run_flag (image : aeron_publication_image_t) (w p : Int) :
    (aeron_publication_image_is_flow_control_over_run image w p).1
      = decide (p > wrap_int64 (w + image.next_sm_receiver_window_length)) := by
  unfold aeron_publication_image_is_flow_control_over_run
  by_cases h : p > wrap_int64 (w + image.next_sm_receiver_window_length) <;> simp [h]

theorem under_run_image (image : aeron_publication_image_t) (w p : Int) :
    (aeron_publication_image_is_flow_control_under_run image w p).2
      = if p < w then
          { image with
            flow_control_under_runs_counter := image.flow_control_under_runs_counter + 1 }
        else image := by
  unfold aeron_publication_image_is_flow_control_under_run aeron_counter_ordered_increment
  by_cases h : p < w <;> simp [h]

theorem over_run_image (image : aeron_publication_image_t) (w p : Int) :
    (aeron_publication_image_is_flow_control_over_run image w p).2
      = if p > wrap_int64 (w + image.next_sm_receiver_window_length) then
          { image with
            flow_control_over_runs_counter := image.flow_control_over_runs_counter + 1 }
        else image := by
  unfold aeron_publication_image_is_flow_control_over_run aeron_counter_ordered_increment
  by_cases h : p > wrap_int64 (w + image.next_sm_receiver_window_length) <;> simp [h]

/-! ## High-water mark -/

/-- Claim C1: after `aeron_publication_image_hwm_candidate(image, p)` the
high-water mark is the maximum of its previous value and the proposed
position, for every image, clock reading and proposed position. -/
theorem hwm_candidate_sets_max (image : aeron_publication_image_t) (now_ns p : Int) :
    (aeron_publication_image_hwm_candidate image now_ns p).rcv_hwm_position
      = max image.rcv_hwm_position p := by
  unfold aeron_publication_image_hwm_candidate
  simp only [propose_max_eq_max]

/-- Claim C2: the high-water mark never decreases.  A single call leaves it
greater than or equal to its value before the call; along every finite
sequence of calls, in any order of proposed positions, each image of the
trace has a high-water mark at least that of the image before it, every image
of the trace has one at least the initial value, and so has the final image,
which is the last of the trace. -/
theorem hwm_monotone (image : aeron_publication_image_t) (calls : List (Int × Int)) :
    (∀ now_ns p : Int,
        image.rcv_hwm_position
          ≤ (aeron_publication_image_hwm_candidate image now_ns p).rcv_hwm_position)
    ∧ List.Chain' (fun a b => a.rcv_hwm_position ≤ b.rcv_hwm_position)
        (hwm_candidate_trace image calls)
    ∧ (∀ s ∈ hwm_candidate_trace image calls, image.rcv_hwm_position ≤ s.rcv_hwm_position)
    ∧ (hwm_candidate_trace image calls).getLast? = some (hwm_candidate_run image calls)
    ∧ image.rcv_hwm_position ≤ (hwm_candidate_run image calls).rcv_hwm_position :=
  ⟨fun now_ns p => hwm_candidate_hwm_le image now_ns p,
    hwm_candidate_trace_chain calls image,
    hwm_candidate_trace_ge calls image,
    hwm_candidate_trace_getLast calls image,
    hwm_candidate_run_ge calls image⟩

/-- Claim C9: every call of `aeron_publication_image_hwm_candidate` stores the
value returned by the clock in `last_packet_timestamp_ns`, whether or not the
proposed position raises the high-water mark. -/
theorem hwm_candidate_records_timestamp (image : aeron_publication_image_t)
    (now_ns p : Int) :
    (aeron_publication_image_hwm_candidate image now_ns p).last_packet_timestamp_ns = now_ns
    ∧ (p ≤ image.rcv_hwm_position →
        (aeron_publication_image_hwm_candidate image now_ns p).rcv_hwm_position
            = image.rcv_hwm_position
          ∧ (aeron_publication_image_hwm_candidate image now_ns p).last_packet_timestamp_ns
            = now_ns) := by
  refine ⟨rfl, fun h => ⟨?_, rfl⟩⟩
  rw [hwm_candidate_hwm]
  exact max_eq_left h

/-- Claim C7: `aeron_publication_image_hwm_candidate` writes only
`last_packet_timestamp_ns` and the high-water mark: putting the old values of
these two members back gives the image before the call, so every other member
is unchanged, among them all of `conductor_fields`, the advertised window, the
rebuilt position and the three diagnostic counters. -/
theorem hwm_candidate_frame (image : aeron_publication_image_t) (now_ns p : Int) :
    { aeron_publication_image_hwm_candidate image now_ns p with
        last_packet_timestamp_ns := image.last_packet_timestamp_ns
        rcv_hwm_position := image.rcv_hwm_position } = image
    ∧ (aeron_publication_image_hwm_candidate image now_ns p).conductor_fields
        = image.conductor_fields
    ∧ (aeron_publication_image_hwm_candidate image now_ns p).conductor_fields.status
        = image.conductor_fields.status
    ∧ (aeron_publication_image_hwm_candidate image now_ns p).conductor_fields.time_of_last_activity_ns
        = image.conductor_fields.time_of_last_activity_ns
    ∧ (aeron_publication_image_hwm_candidate image now_ns p).conductor_fields.liveness_timeout_ns
        = image.conductor_fields.liveness_timeout_ns
    ∧ (aeron_publication_image_hwm_candidate image now_ns p).conductor_fields.has_reached_end_of_life
        = image.conductor_fields.has_reached_end_of_life
    ∧ (aeron_publication_image_hwm_candidate image now_ns p).conductor_fields.clean_position
        = image.conductor_fields.clean_position
    ∧ (aeron_publication_image_hwm_candidate image now_ns p).next_sm_position
        = image.next_sm_position
    ∧ (aeron_publication_image_hwm_candidate image now_ns p).next_sm_receiver_window_length
        = image.next_sm_receiver_window_length
    ∧ (aeron_publication_image_hwm_candidate image now_ns p).rcv_pos_position
        = image.rcv_pos_position
    ∧ (aeron_publication_image_hwm_candidate image now_ns p).heartbeats_received_counter
        = image.heartbeats_received_counter
    ∧ (aeron_publication_image_hwm_candidate image now_ns p).flow_control_under_runs_counter
        = image.flow_control_under_runs_counter
    ∧ (aeron_publication_image_hwm_candidate image now_ns p).flow_control_over_runs_counter
        = image.flow_control_over_runs_counter :=
  ⟨rfl, rfl, rfl, rfl, rfl, rfl, rfl, rfl, rfl, rfl, rfl, rfl, rfl⟩

/-! ## Flow-control tests -/

/-- Claim C3: `aeron_publication_image_is_flow_control_under_run` returns true
exactly when the packet position is strictly less than the window position;
when it returns true the under-run counter is one more than before, and when
it returns false (the case of equal positions included) the counter is as
before. -/
theorem under_run_strict_and_counted (image : aeron_publication_image_t) (w p : Int) :
    ((aeron_publication_image_is_flow_control_under_run image w p).1 = true ↔ p < w)
    ∧ ((aeron_publication_image_is_flow_control_under_run image w p).1 = true →
        (aeron_publication_image_is_flow_control_under_run image w p).2.flow_control_under_runs_counter
          = image.flow_control_under_runs_counter + 1)
    ∧ ((aeron_publication_image_is_flow_control_under_run image w p).1 = false →
        (aeron_publication_image_is_flow_control_under_run image w p).2.flow_control_under_runs_counter
          = image.flow_control_under_runs_counter)
    ∧ (aeron_publication_image_is_flow_control_under_run image w w).1 = false := by
  rw [under_run_flag, under_run_image, under_run_flag]
  refine ⟨by simp, ?_, ?_, by simp⟩
  · intro h
    have hp : p < w := by simpa using h
    simp [hp]
  · intro h
    have hp : ¬ p < w := by simpa using h
    simp [hp]

/-- Claim C4: when `w + L` fits a signed 64-bit integer, `L` being
`next_sm_receiver_window_length`, `aeron_publication_image_is_flow_control_over_run`
returns true exactly when the proposed position is strictly greater than
`w + L`; when it returns true the over-run counter is one more than before,
and when it returns false (the boundary `p = w + L` included) the counter is
as before. -/
theorem over_run_window_and_counted (image : aeron_publication_image_t) (w p : Int)
    (hfit : in_int64 (w + image.next_sm_receiver_window_length)) :
    ((aeron_publication_image_is_flow_control_over_run image w p).1 = true
        ↔ p > w + image.next_sm_receiver_window_length)
    ∧ ((aeron_publication_image_is_flow_control_over_run image w p).1 = true →
        (aeron_publication_image_is_flow_control_over_run image w p).2.flow_control_over_runs_counter
          = image.flow_control_over_runs_counter + 1)
    ∧ ((aeron_publication_image_is_flow_control_over_run image w p).1 = false →
        (aeron_publication_image_is_flow_control_over_run image w p).2.flow_control_over_runs_counter
          = image.flow_control_over_runs_counter)
    ∧ (aeron_publication_image_is_flow_control_over_run image w
        (w + image.next_sm_receiver_window_length)).1 = false := by
  rw [over_run_flag, over_run_image, over_run_flag, wrap_int64_of_in_int64 _ hfit]
  refine ⟨by simp, ?_, ?_, by simp⟩
  · intro h
    have hp : p > w + image.next_sm_receiver_window_length := by simpa using h
    simp [hp]
  · intro h
    have hp : ¬ p > w + image.next_sm_receiver_window_length := by simpa using h
    simp [hp]

/-- Witness of claim C4 on the sample image: window position 2048, window
length 131072, proposed position 200000, an over-run that is counted. -/
theorem over_run_window_and_counted_witness :
    in_int64 (2048 + sample_image.next_sm_receiver_window_length)
    ∧ (((aeron_publication_image_is_flow_control_over_run sample_image 2048 200000).1 = true
          ↔ (200000 : Int) > 2048 + sample_image.next_sm_receiver_window_length)
      ∧ ((aeron_publication_image_is_flow_control_over_run sample_image 2048 200000).1 = true →
          (aeron_publication_image_is_flow_control_over_run sample_image 2048
              200000).2.flow_control_over_runs_counter
            = sample_image.flow_control_over_runs_counter + 1)
      ∧ ((aeron_publication_image_is_flow_control_over_run sample_image 2048 200000).1 = false →
          (aeron_publication_image_is_flow_control_over_run sample_image 2048
              200000).2.flow_control_over_runs_counter
            = sample_image.flow_control_over_runs_counter)
      ∧ (aeron_publication_image_is_flow_control_over_run sample_image 2048
          (2048 + sample_image.next_sm_receiver_window_length)).1 = false) :=
  ⟨by decide, over_run_window_and_counted sample_image 2048 200000 (by decide)⟩

/-- Claim C8: each flow-control test writes its own counter and nothing else.
Putting the old value of the under-run counter back into the image returned by
the under-run test gives the image before the call, and likewise for the
over-run test and the over-run counter; so neither moves the high-water mark,
the advertised window, the counter of the other test or the heartbeat
counter. -/
theorem flow_control_tests_frame (image : aeron_publication_image_t) (w p : Int) :
    ({ (aeron_publication_image_is_flow_control_under_run image w p).2 with
        flow_control_under_runs_counter := image.flow_control_under_runs_counter } = image
      ∧ (aeron_publication_image_is_flow_control_under_run image w p).2.rcv_hwm_position
          = image.rcv_hwm_position
      ∧ (aeron_publication_image_is_flow_control_under_run image w p).2.next_sm_position
          = image.next_sm_position
      ∧ (aeron_publication_image_is_flow_control_under_run image w p).2.next_sm_receiver_window_length
          = image.next_sm_receiver_window_length
      ∧ (aeron_publication_image_is_flow_control_under_run image w p).2.flow_control_over_runs_counter
          = image.flow_control_over_runs_counter
      ∧ (aeron_publication_image_is_flow_control_under_run image w p).2.heartbeats_received_counter
          = image.heartbeats_received_counter)
    ∧ ({ (aeron_publication_image_is_flow_control_over_run image w p).2 with
        flow_control_over_runs_counter := image.flow_control_over_runs_counter } = image
      ∧ (aeron_publication_image_is_flow_control_over_run image w p).2.rcv_hwm_position
          = image.rcv_hwm_position
      ∧ (aeron_publication_image_is_flow_control_over_run image w p).2.next_sm_position
          = image.next_sm_position
      ∧ (aeron_publication_image_is_flow_control_over_run image w p).2.next_sm_receiver_window_length
          = image.next_sm_receiver_window_length
      ∧ (aeron_publication_image_is_flow_control_over_run image w p).2.flow_control_under_runs_counter
          = image.flow_control_under_runs_counter
      ∧ (aeron_publication_image_is_flow_control_over_run image w p).2.heartbeats_received_counter
          = image.heartbeats_received_counter) := by
  rw [under_run_image, over_run_image]
  constructor
  · by_cases h : p < w <;> simp [h]
  · by_cases h : p > wrap_int64 (w + image.next_sm_receiver_window_length) <;> simp [h]

/-- Claim C10: for a window length `L ≥ 0` and a window position `w` such
that `w + L` fits a signed 64-bit integer, every position `p` with
`w ≤ p ≤ w + L` makes both flow-control tests return false and leaves the
image, both counters included, unchanged; and, for such `L` and `w`, no
position makes both tests return true. -/
theorem in_window_no_diagnostic (image : aeron_publication_image_t) (w : Int)
    (hL : 0 ≤ image.next_sm_receiver_window_length)
    (hfit : in_int64 (w + image.next_sm_receiver_window_length)) :
    (∀ p : Int, w ≤ p → p ≤ w + image.next_sm_receiver_window_length →
        aeron_publication_image_is_flow_control_under_run image w p = (false, image)
        ∧ aeron_publication_image_is_flow_control_over_run image w p = (false, image))
    ∧ (∀ p : Int,
        ¬ ((aeron_publication_image_is_flow_control_under_run image w p).1 = true
            ∧ (aeron_publication_image_is_flow_control_over_run image w p).1 = true)) := by
  constructor
  · intro p hlo hhi
    have h1 : ¬ p < w := by omega
    have h2 : ¬ p > wrap_int64 (w + image.next_sm_receiver_window_length) := by
      rw [wrap_int64_of_in_int64 _ hfit]; omega
    constructor
    · apply Prod.ext
      · rw [under_run_flag]; simp [h1]
      · rw [under_run_image]; simp [h1]
    · apply Prod.ext
      · rw [over_run_flag]; simpa using h2
      · rw [over_run_image]; simp only [h2, if_false]
  · intro p
    rw [under_run_flag, over_run_flag, wrap_int64_of_in_int64 _ hfit]
    simp only [decide_eq_true_eq]
    omega

/-- Witness of claim C10 on the sample image: window position
2048, window length 131072. -/
theorem in_window_no_diagnostic_witness :
    0 ≤ sample_image.next_sm_receiver_window_length
    ∧ in_int64 (2048 + sample_image.next_sm_receiver_window_length)
    ∧ ((∀ p : Int, 2048 ≤ p → p ≤ 2048 + sample_image.next_sm_receiver_window_length →
          aeron_publication_image_is_flow_control_under_run sample_image 2048 p
            = (false, sample_image)
          ∧ aeron_publication_image_is_flow_control_over_run sample_image 2048 p
            = (false, sample_image))
      ∧ (∀ p : Int,
          ¬ ((aeron_publication_image_is_flow_control_under_run sample_image 2048 p).1 = true
              ∧ (aeron_publication_image_is_flow_control_over_run sample_image 2048 p).1
                = true))) :=
  ⟨by decide, by decide, in_window_no_diagnostic sample_image 2048 (by decide) (by decide)⟩

/-! ## Frame classification -/

/-- Claim C5, the code at a frame that carries begin and end but not EOS
(flags `0xC0` with EOS `0x20`, BEGIN `0x80`, END `0x40`):
`aeron_publication_image_is_end_of_stream` returns true although the EOS bit
is clear; likewise for a frame carrying the begin bit alone. -/
theorem is_end_of_stream_without_eos_bit :
    aeron_publication_image_is_end_of_stream 0x20 0x80 0x40
        { frame_length := 1408, flags := 0xC0 } 1408 = true
    ∧ ((0xC0 : Nat) &&& 0x20) = 0
    ∧ aeron_publication_image_is_end_of_stream 0x20 0x80 0x40
        { frame_length := 1408, flags := 0x80 } 1408 = true := by
  refine ⟨by decide, by decide, by decide⟩

/-- The end-of-stream test is a mask test: it returns true exactly when the
flags byte shares a bit with the union of the three flag constants. -/
theorem is_end_of_stream_iff_any_bit
    (AERON_DATA_HEADER_EOS_FLAG AERON_DATA_HEADER_BEGIN_FLAG AERON_DATA_HEADER_END_FLAG : Nat)
    (buffer : aeron_frame_header_t) (length : Nat) :
    aeron_publication_image_is_end_of_stream AERON_DATA_HEADER_EOS_FLAG
        AERON_DATA_HEADER_BEGIN_FLAG AERON_DATA_HEADER_END_FLAG buffer length = true
      ↔ buffer.flags &&&
          (AERON_DATA_HEADER_EOS_FLAG ||| AERON_DATA_HEADER_BEGIN_FLAG
            ||| AERON_DATA_HEADER_END_FLAG) ≠ 0 := by
  unfold aeron_publication_image_is_end_of_stream
  simp

/-- Claim C6, as stated, fails: with a data header length of 32, a received
length of 64 and a frame header whose `frame_length` is 0, the function
returns false. -/
theorem is_heartbeat_needs_header_length :
    ¬ (aeron_publication_image_is_heartbeat 32 { frame_length := 0, flags := 0xC0 } 64 = true
        ↔ ({ frame_length := 0, flags := 0xC0 } : aeron_frame_header_t).frame_length = 0) := by
  decide

/-- Claim C6, amended: `aeron_publication_image_is_heartbeat` returns true
exactly when the received length equals `AERON_DATA_HEADER_LENGTH` and the
`frame_length` member of the frame header is 0. -/
theorem is_heartbeat_iff (AERON_DATA_HEADER_LENGTH : Nat) (buffer : aeron_frame_header_t)
    (length : Nat) :
    aeron_publication_image_is_heartbeat AERON_DATA_HEADER_LENGTH buffer length = true
      ↔ (length = AERON_DATA_HEADER_LENGTH ∧ buffer.frame_length = 0) := by
  unfold aeron_publication_image_is_heartbeat
  simp only [Bool.and_eq_true, beq_iff_eq]
  constructor
  · rintro ⟨h1, h2⟩; exact ⟨h1, h2.symm⟩
  · rintro ⟨h1, h2⟩; exact ⟨h1, h2.symm⟩

end Aeron
